import Mathlib

/-!
Shallow embedding of the ACM health-scoring engine of `acmScoring.ts`
(`calculateCardiovascularScore`, `calculateMetabolicScore`, `calculateActivityScore`,
`calculateLifestyleScore`, `applyDemographicAdjustments`, `determineRiskLevel`,
`generateRecommendations`, `calculateACMScore`, `getScoreColor`,
`getRiskLevelDescription`) together with the `HealthData` record of `useHealthData.ts`.

JavaScript numbers are modelled as exact rationals (ℚ); `Math.round` is Mathlib's
`round` (both round halves up), `Math.max(0, Math.min(100, s))` is
`max 0 (min 100 s)`, and a nullable numeric field is `Option ℚ`.  JavaScript
truthiness of such a field (`if (data.x)`) is `truthy`: false exactly on `null`
and `0`.  The single place where the source can divide by zero
(`weightDifference` when `idealWeight = 0`) is spelled out explicitly, because in
JavaScript that division yields `Infinity` (the numerator is nonzero there), not
an error. -/

inductive BiologicalSex where
  | male
  | female
  | other
deriving DecidableEq, Repr

/-- The `HealthData` interface of `useHealthData.ts` (lines 8-20): every numeric
reading is nullable, `biologicalSex` is a nullable three-valued enum. -/
structure HealthData where
  stepCount : Option ℚ
  heartRate : Option ℚ
  weight : Option ℚ
  height : Option ℚ
  bloodPressureSystolic : Option ℚ
  bloodPressureDiastolic : Option ℚ
  bmi : Option ℚ
  restingHeartRate : Option ℚ
  activeEnergyBurned : Option ℚ
  age : Option ℚ
  biologicalSex : Option BiologicalSex
deriving DecidableEq, Repr

inductive RiskLevel where
  | low
  | moderate
  | high
  | veryHigh
deriving DecidableEq, Repr

/-- The rounded four-dimension breakdown of `ACMScore` (source lines 5-10). -/
structure Breakdown where
  cardiovascular : ℤ
  metabolic : ℤ
  activity : ℤ
  lifestyle : ℤ
deriving DecidableEq, Repr

/-- The `ACMScore` result interface (source lines 3-13). -/
structure ACMScore where
  overall : ℤ
  breakdown : Breakdown
  riskLevel : RiskLevel
  recommendations : List String
deriving DecidableEq, Repr

/-- JavaScript truthiness of a nullable numeric field: `null` and `0` are falsy,
every other number is truthy. -/
def truthy (o : Option ℚ) : Bool :=
  match o with
  | none => false
  | some v => decide (v ≠ 0)

/-- `calculateCardiovascularScore` (source lines 44-68). -/
def calculateCardiovascularScore (data : HealthData) : ℚ :=
  let score : ℚ := 100
  let score :=
    if truthy data.restingHeartRate then
      let rhr := data.restingHeartRate.getD 0
      let score :=
        if rhr ≥ 100 then score - 25
        else if rhr ≥ 80 then score - 15
        else if rhr ≥ 70 then score - 8
        else if rhr ≥ 60 then score - 2
        else score
      if rhr ≥ 40 ∧ rhr ≤ 55 then score + 5 else score
    else score
  let score :=
    if truthy data.heartRate && truthy data.restingHeartRate then
      let heartRateVariability := |data.heartRate.getD 0 - data.restingHeartRate.getD 0|
      if heartRateVariability > 30 then score - 10 else score
    else score
  max 0 (min 100 score)

/-- The direct-BMI four-way if/else-if chain of `calculateMetabolicScore`
(source lines 77-83), applied to the running score. -/
def bmiAdjust (score bmi : ℚ) : ℚ :=
  if bmi < 18.5 then score - 15
  else if bmi ≥ 30 then score - 30
  else if bmi ≥ 25 then score - 15
  else if bmi ≥ 18.5 ∧ bmi ≤ 24.9 then score + 10
  else score

/-- The derived-BMI four-way if/else-if chain of `calculateMetabolicScore`
(source lines 89-92), applied to the running score. -/
def derivedBmiAdjust (score calculatedBMI : ℚ) : ℚ :=
  if calculatedBMI < 18.5 then score - 15
  else if calculatedBMI ≥ 30 then score - 30
  else if calculatedBMI ≥ 25 then score - 15
  else score + 10

/-- `calculateMetabolicScore` (source lines 71-107).  In the ideal-weight block the
source divides by `idealWeight`; when `idealWeight = 0` JavaScript produces
`Infinity` (the numerator `|weight - idealWeight|` is nonzero because `weight` is
truthy in that branch), so `weightDifference > 0.3` holds and the `-20` penalty
fires — ℚ has no infinity, so that case is made explicit. -/
def calculateMetabolicScore (data : HealthData) : ℚ :=
  let score : ℚ := 100
  let score :=
    if truthy data.bmi then
      bmiAdjust score (data.bmi.getD 0)
    else if truthy data.weight && truthy data.height then
      let heightInM := data.height.getD 0 / 100
      derivedBmiAdjust score (data.weight.getD 0 / (heightInM * heightInM))
    else score
  let score :=
    if truthy data.weight && truthy data.height && truthy data.age
        && data.biologicalSex.isSome then
      let heightInM := data.height.getD 0 / 100
      let idealWeight :=
        if data.biologicalSex = some BiologicalSex.male then (heightInM - 1) * 100 * 0.9
        else (heightInM - 1) * 100 * 0.85
      if idealWeight = 0 then score - 20
      else
        let weightDifference := |data.weight.getD 0 - idealWeight| / idealWeight
        if weightDifference > 0.3 then score - 20
        else if weightDifference > 0.15 then score - 10
        else score
    else score
  max 0 (min 100 score)

/-- The step-count if/else-if chain of `calculateActivityScore`
(source lines 116-124), applied to the running score. -/
def stepAdjust (score steps : ℚ) : ℚ :=
  if steps < 3000 then score - 40
  else if steps < 5000 then score - 25
  else if steps < 7000 then score - 10
  else if steps ≥ 10000 then score + 15
  else if steps ≥ 12000 then score + 20
  else score

/-- The calorie-ratio if/else-if chain of `calculateActivityScore`
(source lines 142-145), applied to the running score. -/
def energyAdjust (score calorieRatio : ℚ) : ℚ :=
  if calorieRatio < 0.3 then score - 30
  else if calorieRatio < 0.6 then score - 15
  else if calorieRatio ≥ 1.2 then score + 15
  else if calorieRatio ≥ 1.5 then score + 20
  else score

/-- The target-calorie computation of `calculateActivityScore`
(source lines 131-139). -/
def targetCalories (data : HealthData) : ℚ :=
  if truthy data.age && data.biologicalSex.isSome then
    let base : ℚ :=
      if data.age.getD 0 < 30 then 400
      else if data.age.getD 0 < 50 then 350
      else 250
    if data.biologicalSex = some BiologicalSex.male then base * 1.2 else base
  else 300

/-- `calculateActivityScore` (source lines 110-148).  Both readings are guarded by
`!== null`, not by truthiness, so a present `0` is penalized. -/
def calculateActivityScore (data : HealthData) : ℚ :=
  let score : ℚ := 100
  let score :=
    match data.stepCount with
    | some steps => stepAdjust score steps
    | none => score
  let score :=
    match data.activeEnergyBurned with
    | some calories => energyAdjust score (calories / targetCalories data)
    | none => score
  max 0 (min 100 score)

/-- `calculateLifestyleScore` (source lines 152-189). -/
def calculateLifestyleScore (data : HealthData) : ℚ :=
  let score : ℚ := 100
  let score :=
    if truthy data.age then
      let age := data.age.getD 0
      if age ≥ 65 then score - 15
      else if age ≥ 50 then score - 8
      else if age < 25 then score - 5
      else score
    else score
  let score := if data.biologicalSex = some BiologicalSex.male then score - 5 else score
  let healthMetrics := [data.stepCount, data.heartRate, data.weight, data.height,
    data.restingHeartRate, data.activeEnergyBurned]
  let dataCompleteness := (healthMetrics.filter fun metric =>
    match metric with
    | some v => decide (v > 0)
    | none => false).length
  let completenessRatio : ℚ := (dataCompleteness : ℚ) / (healthMetrics.length : ℚ)
  let score := if completenessRatio ≥ 0.8 then score + 10 else score
  max 0 (min 100 score)

/-- `applyDemographicAdjustments` (source lines 192-211). -/
def applyDemographicAdjustments (score : ℚ) (data : HealthData) : ℚ :=
  let adjustedScore :=
    if truthy data.age then
      let age := data.age.getD 0
      let ageMultiplier : ℚ :=
        if age ≥ 65 then 0.85
        else if age ≥ 50 then 0.9
        else if age ≥ 30 then 0.95
        else 1.0
      score * ageMultiplier
    else score
  max 0 (min 100 adjustedScore)

/-- `determineRiskLevel` (source lines 214-219). -/
def determineRiskLevel (score : ℚ) : RiskLevel :=
  if score ≥ 85 then .low
  else if score ≥ 70 then .moderate
  else if score ≥ 50 then .high
  else .veryHigh

/-- `generateRecommendations` (source lines 222-262). -/
def generateRecommendations (data : HealthData) (breakdown : Breakdown) : List String :=
  let recommendations : List String := []
  let recommendations :=
    if breakdown.cardiovascular < 70 then
      let recommendations :=
        if truthy data.restingHeartRate && decide (data.restingHeartRate.getD 0 > 80) then
          recommendations ++ ["🏃‍♂️ 增加有氧运动，降低静息心率"]
        else recommendations
      recommendations ++ ["❤️ 定期监测血压和心率"]
    else recommendations
  let recommendations :=
    if breakdown.metabolic < 70 then
      let recommendations :=
        if truthy data.bmi && decide (data.bmi.getD 0 > 25) then
          recommendations ++ ["⚖️ 控制体重，保持健康BMI"]
        else recommendations
      recommendations ++ ["🥗 注意饮食平衡，减少加工食品"]
    else recommendations
  let recommendations :=
    if breakdown.activity < 70 then
      let recommendations :=
        if data.stepCount.isSome && decide (data.stepCount.getD 0 < 7000) then
          recommendations ++ ["🚶‍♀️ 增加日常步数，目标每天10000步"]
        else recommendations
      recommendations ++ ["💪 加入力量训练，每周2-3次"]
    else recommendations
  let recommendations :=
    if breakdown.lifestyle < 70 then
      recommendations ++ ["😴 保证充足睡眠，每天7-9小时", "🧘‍♀️ 学习压力管理技巧"]
    else recommendations
  let recommendations :=
    if recommendations.length = 0 then
      recommendations ++ ["🌟 继续保持健康的生活方式！", "📊 定期监测健康指标"]
    else recommendations
  recommendations.take 4

/-- `calculateACMScore` (source lines 265-299): the engine entry point. -/
def calculateACMScore (data : HealthData) : ACMScore :=
  let cardiovascular := calculateCardiovascularScore data
  let metabolic := calculateMetabolicScore data
  let activity := calculateActivityScore data
  let lifestyle := calculateLifestyleScore data
  let weightedScore :=
    cardiovascular * 0.35 + metabolic * 0.25 + activity * 0.25 + lifestyle * 0.15
  let adjustedScore := applyDemographicAdjustments weightedScore data
  let breakdown : Breakdown :=
    { cardiovascular := round cardiovascular
      metabolic := round metabolic
      activity := round activity
      lifestyle := round lifestyle }
  let overall := round adjustedScore
  let riskLevel := determineRiskLevel (overall : ℚ)
  let recommendations := generateRecommendations data breakdown
  { overall := overall
    breakdown := breakdown
    riskLevel := riskLevel
    recommendations := recommendations }

/-- `getScoreColor` (source lines 302-310). -/
def getScoreColor (score : ℚ) : String :=
  if score ≥ 85 then "#10B981"
  else if score ≥ 70 then "#F59E0B"
  else if score ≥ 50 then "#EF4444"
  else "#DC2626"

/-- `getRiskLevelDescription` (source lines 313-326). -/
def getRiskLevelDescription (riskLevel : RiskLevel) : String :=
  match riskLevel with
  | .low => "低风险"
  | .moderate => "中等风险"
  | .high => "高风险"
  | .veryHigh => "极高风险"

/-- The all-null snapshot: every reading absent. -/
def emptySnapshot : HealthData :=
  { stepCount := none
    heartRate := none
    weight := none
    height := none
    bloodPressureSystolic := none
    bloodPressureDiastolic := none
    bmi := none
    restingHeartRate := none
    activeEnergyBurned := none
    age := none
    biologicalSex := none }

/-- The fixed tier-to-color mapping implicit in the source: each risk tier's scores
get exactly this color from `getScoreColor`. -/
def tierColor : RiskLevel → String
  | .low => "#10B981"
  | .moderate => "#F59E0B"
  | .high => "#EF4444"
  | .veryHigh => "#DC2626"

/-- Age multiplier exactly as the spec words it (section 4.5): `≥65 → ×0.85`,
`≥50 → ×0.90`, `≥30 → ×0.95`, else (including an absent age) `×1.0`. -/
def specAgeMultiplier (age : Option ℚ) : ℚ :=
  match age with
  | some a => if a ≥ 65 then 0.85 else if a ≥ 50 then 0.9 else if a ≥ 30 then 0.95 else 1
  | none => 1

/-- A snapshot whose derived BMI `99.8 / 2²  = 24.95` lands in the gap `(24.9, 25)`;
age and sex are present so the ideal-weight penalty drags the score below the clamp
and makes the difference observable. -/
def gapSnapshot : HealthData :=
  { emptySnapshot with
    weight := some 99.8
    height := some 200
    age := some 40
    biologicalSex := some BiologicalSex.female }

/-- A gap-free snapshot for the witness: derived BMI `80 / 2² = 20`. -/
def plainSnapshot : HealthData :=
  { emptySnapshot with weight := some 80, height := some 200 }

/-- Cardiovascular advisory block as the spec states it: below 70 emit the generic
heart tip, preceded by the heart-rate-specific tip when `restingHeartRate > 80`. -/
def cardioBlock (data : HealthData) (breakdown : Breakdown) : List String :=
  if breakdown.cardiovascular < 70 then
    (if truthy data.restingHeartRate && decide (data.restingHeartRate.getD 0 > 80) then
      ["🏃‍♂️ 增加有氧运动，降低静息心率"]
    else []) ++ ["❤️ 定期监测血压和心率"]
  else []

/-- Metabolic advisory block: below 70 emit the diet tip, preceded by the weight tip
when `bmi > 25`. -/
def metabolicBlock (data : HealthData) (breakdown : Breakdown) : List String :=
  if breakdown.metabolic < 70 then
    (if truthy data.bmi && decide (data.bmi.getD 0 > 25) then
      ["⚖️ 控制体重，保持健康BMI"]
    else []) ++ ["🥗 注意饮食平衡，减少加工食品"]
  else []

/-- Activity advisory block: below 70 emit the strength tip, preceded by the
step-count tip when a non-null `stepCount` is below 7000. -/
def activityBlock (data : HealthData) (breakdown : Breakdown) : List String :=
  if breakdown.activity < 70 then
    (if data.stepCount.isSome && decide (data.stepCount.getD 0 < 7000) then
      ["🚶‍♀️ 增加日常步数，目标每天10000步"]
    else []) ++ ["💪 加入力量训练，每周2-3次"]
  else []

/-- Lifestyle advisory block: below 70 emit the two fixed lifestyle tips. -/
def lifestyleBlock (breakdown : Breakdown) : List String :=
  if breakdown.lifestyle < 70 then
    ["😴 保证充足睡眠，每天7-9小时", "🧘‍♀️ 学习压力管理技巧"]
  else []

/-- Recommendation pipeline as the spec states it (section 4.7): the four dimension
blocks in fixed order, the two generic fallback strings when no block fired, and
truncation to at most 4 entries. -/
def specRecommendations (data : HealthData) (breakdown : Breakdown) : List String :=
  let blocks := cardioBlock data breakdown ++ metabolicBlock data breakdown ++
    activityBlock data breakdown ++ lifestyleBlock breakdown
  (if blocks = [] then ["🌟 继续保持健康的生活方式！", "📊 定期监测健康指标"] else blocks).take 4

/-- Reading the value of a nullable field: `Except.error` when the field is null.
The checked engine below threads every value read of the source through this,
so `checkedCalculateACMScore data = .ok _` states that the source never uses the
value of an absent reading — absent fields only skip their signal. -/
def readField (o : Option ℚ) : Except String ℚ :=
  match o with
  | some v => Except.ok v
  | none => Except.error "TypeError: read of a null field"

/-- `calculateCardiovascularScore` with checked field reads. -/
def checkedCardiovascularScore (data : HealthData) : Except String ℚ := do
  let score : ℚ := 100
  let score ←
    if truthy data.restingHeartRate then do
      let rhr ← readField data.restingHeartRate
      let score :=
        if rhr ≥ 100 then score - 25
        else if rhr ≥ 80 then score - 15
        else if rhr ≥ 70 then score - 8
        else if rhr ≥ 60 then score - 2
        else score
      pure (if rhr ≥ 40 ∧ rhr ≤ 55 then score + 5 else score)
    else pure score
  let score ←
    if truthy data.heartRate && truthy data.restingHeartRate then do
      let hr ← readField data.heartRate
      let rhr ← readField data.restingHeartRate
      let heartRateVariability := |hr - rhr|
      pure (if heartRateVariability > 30 then score - 10 else score)
    else pure score
  pure (max 0 (min 100 score))

/-- `calculateMetabolicScore` with checked field reads. -/
def checkedMetabolicScore (data : HealthData) : Except String ℚ := do
  let score : ℚ := 100
  let score ←
    if truthy data.bmi then do
      let bmi ← readField data.bmi
      pure (bmiAdjust score bmi)
    else if truthy data.weight && truthy data.height then do
      let w ← readField data.weight
      let h ← readField data.height
      let heightInM := h / 100
      pure (derivedBmiAdjust score (w / (heightInM * heightInM)))
    else pure score
  let score ←
    if truthy data.weight && truthy data.height && truthy data.age
        && data.biologicalSex.isSome then do
      let w ← readField data.weight
      let h ← readField data.height
      let heightInM := h / 100
      let idealWeight :=
        if data.biologicalSex = some BiologicalSex.male then (heightInM - 1) * 100 * 0.9
        else (heightInM - 1) * 100 * 0.85
      pure
        (if idealWeight = 0 then score - 20
        else
          let weightDifference := |w - idealWeight| / idealWeight
          if weightDifference > 0.3 then score - 20
          else if weightDifference > 0.15 then score - 10
          else score)
    else pure score
  pure (max 0 (min 100 score))

/-- `calculateActivityScore` with checked field reads. -/
def checkedActivityScore (data : HealthData) : Except String ℚ := do
  let score : ℚ := 100
  let score ←
    if data.stepCount.isSome then do
      let steps ← readField data.stepCount
      pure (stepAdjust score steps)
    else pure score
  let score ←
    if data.activeEnergyBurned.isSome then do
      let calories ← readField data.activeEnergyBurned
      pure (energyAdjust score (calories / targetCalories data))
    else pure score
  pure (max 0 (min 100 score))

/-- `calculateLifestyleScore` with a checked read of `age` (its only guarded value
use; the completeness count tests each entry against null before use). -/
def checkedLifestyleScore (data : HealthData) : Except String ℚ := do
  let score : ℚ := 100
  let score ←
    if truthy data.age then do
      let age ← readField data.age
      pure
        (if age ≥ 65 then score - 15
        else if age ≥ 50 then score - 8
        else if age < 25 then score - 5
        else score)
    else pure score
  let score := if data.biologicalSex = some BiologicalSex.male then score - 5 else score
  let healthMetrics := [data.stepCount, data.heartRate, data.weight, data.height,
    data.restingHeartRate, data.activeEnergyBurned]
  let dataCompleteness := (healthMetrics.filter fun metric =>
    match metric with
    | some v => decide (v > 0)
    | none => false).length
  let completenessRatio : ℚ := (dataCompleteness : ℚ) / (healthMetrics.length : ℚ)
  let score := if completenessRatio ≥ 0.8 then score + 10 else score
  pure (max 0 (min 100 score))

/-- `applyDemographicAdjustments` with a checked read of `age`. -/
def checkedApplyDemographicAdjustments (score : ℚ) (data : HealthData) :
    Except String ℚ := do
  let adjustedScore ←
    if truthy data.age then do
      let age ← readField data.age
      let ageMultiplier : ℚ :=
        if age ≥ 65 then 0.85
        else if age ≥ 50 then 0.9
        else if age ≥ 30 then 0.95
        else 1.0
      pure (score * ageMultiplier)
    else pure score
  pure (max 0 (min 100 adjustedScore))

/-- `generateRecommendations` with checked reads of the three raw readings it
consults (`restingHeartRate`, `bmi`, `stepCount`), mirroring the short-circuit
guards of the source. -/
def checkedGenerateRecommendations (data : HealthData) (breakdown : Breakdown) :
    Except String (List String) := do
  let recommendations : List String := []
  let recommendations ←
    if breakdown.cardiovascular < 70 then do
      let recommendations ←
        if truthy data.restingHeartRate then do
          let rhr ← readField data.restingHeartRate
          pure (if rhr > 80 then recommendations ++ ["🏃‍♂️ 增加有氧运动，降低静息心率"]
            else recommendations)
        else pure recommendations
      pure (recommendations ++ ["❤️ 定期监测血压和心率"])
    else pure recommendations
  let recommendations ←
    if breakdown.metabolic < 70 then do
      let recommendations ←
        if truthy data.bmi then do
          let bmi ← readField data.bmi
          pure (if bmi > 25 then recommendations ++ ["⚖️ 控制体重，保持健康BMI"]
            else recommendations)
        else pure recommendations
      pure (recommendations ++ ["🥗 注意饮食平衡，减少加工食品"])
    else pure recommendations
  let recommendations ←
    if breakdown.activity < 70 then do
      let recommendations ←
        if data.stepCount.isSome then do
          let steps ← readField data.stepCount
          pure (if steps < 7000 then recommendations ++ ["🚶‍♀️ 增加日常步数，目标每天10000步"]
            else recommendations)
        else pure recommendations
      pure (recommendations ++ ["💪 加入力量训练，每周2-3次"])
    else pure recommendations
  let recommendations :=
    if breakdown.lifestyle < 70 then
      recommendations ++ ["😴 保证充足睡眠，每天7-9小时", "🧘‍♀️ 学习压力管理技巧"]
    else recommendations
  let recommendations :=
    if recommendations.length = 0 then
      recommendations ++ ["🌟 继续保持健康的生活方式！", "📊 定期监测健康指标"]
    else recommendations
  pure (recommendations.take 4)

/-- `calculateACMScore` with checked field reads throughout. -/
def checkedCalculateACMScore (data : HealthData) : Except String ACMScore := do
  let cardiovascular ← checkedCardiovascularScore data
  let metabolic ← checkedMetabolicScore data
  let activity ← checkedActivityScore data
  let lifestyle ← checkedLifestyleScore data
  let weightedScore :=
    cardiovascular * 0.35 + metabolic * 0.25 + activity * 0.25 + lifestyle * 0.15
  let adjustedScore ← checkedApplyDemographicAdjustments weightedScore data
  let breakdown : Breakdown :=
    { cardiovascular := round cardiovascular
      metabolic := round metabolic
      activity := round activity
      lifestyle := round lifestyle }
  let overall := round adjustedScore
  let riskLevel := determineRiskLevel (overall : ℚ)
  let recommendations ← checkedGenerateRecommendations data breakdown
  pure { overall := overall
         breakdown := breakdown
         riskLevel := riskLevel
         recommendations := recommendations }

/-- Rewriting helper: `none` is never `some a` (stated as a propositional equation so
that it can be used inside `norm_num` calls, where constructor-equality simprocs do
not fire). -/
theorem optNoneEqSome {α : Type} (a : α) : ((none : Option α) = some a) = False := by
  simp

/-- Rewriting helper: `some a` is never `none`. -/
theorem optSomeEqNone {α : Type} (a : α) : ((some a : Option α) = none) = False := by
  simp

/-- Rewriting helper: `female` is not `male`. -/
theorem femaleNeMale : (BiologicalSex.female = BiologicalSex.male) = False := by
  simp

/-- The clamp `Math.max(0, Math.min(100, x))` is nonnegative. -/
theorem clamp_nonneg (x : ℚ) : 0 ≤ max 0 (min 100 x) :=
  le_max_left 0 _

/-- The clamp `Math.max(0, Math.min(100, x))` is at most 100. -/
theorem clamp_le_hundred (x : ℚ) : max 0 (min 100 x) ≤ 100 :=
  max_le (by norm_num) (min_le_left _ _)

/-- Rounding a rational in `[0, 100]` gives an integer in `[0, 100]`. -/
theorem round_mem_Icc {x : ℚ} (h0 : 0 ≤ x) (h1 : x ≤ 100) :
    0 ≤ round x ∧ round x ≤ 100 := by
  rw [round_eq]
  constructor
  · exact Int.le_floor.mpr (by push_cast; linarith)
  · have h2 : (⌊(100 : ℚ) + 1 / 2⌋ : ℤ) = 100 := by norm_num
    exact le_trans (Int.floor_le_floor (by linarith)) (le_of_eq h2)

/-- The cardiovascular sub-score is clamped to `[0, 100]`. -/
theorem cardiovascular_bounds (data : HealthData) :
    0 ≤ calculateCardiovascularScore data ∧ calculateCardiovascularScore data ≤ 100 := by
  unfold calculateCardiovascularScore
  exact ⟨clamp_nonneg _, clamp_le_hundred _⟩

/-- The metabolic sub-score is clamped to `[0, 100]`. -/
theorem metabolic_bounds (data : HealthData) :
    0 ≤ calculateMetabolicScore data ∧ calculateMetabolicScore data ≤ 100 := by
  unfold calculateMetabolicScore
  exact ⟨clamp_nonneg _, clamp_le_hundred _⟩

/-- The activity sub-score is clamped to `[0, 100]`. -/
theorem activity_bounds (data : HealthData) :
    0 ≤ calculateActivityScore data ∧ calculateActivityScore data ≤ 100 := by
  unfold calculateActivityScore
  exact ⟨clamp_nonneg _, clamp_le_hundred _⟩

/-- The lifestyle sub-score is clamped to `[0, 100]`. -/
theorem lifestyle_bounds (data : HealthData) :
    0 ≤ calculateLifestyleScore data ∧ calculateLifestyleScore data ≤ 100 := by
  unfold calculateLifestyleScore
  exact ⟨clamp_nonneg _, clamp_le_hundred _⟩

/-- The demographically adjusted aggregate is clamped to `[0, 100]`. -/
theorem applyDemographicAdjustments_bounds (score : ℚ) (data : HealthData) :
    0 ≤ applyDemographicAdjustments score data ∧ applyDemographicAdjustments score data ≤ 100 := by
  unfold applyDemographicAdjustments
  exact ⟨clamp_nonneg _, clamp_le_hundred _⟩

/-- Claim C1: for every snapshot, `calculateACMScore` returns an overall score in
`[0, 100]` and four breakdown fields in `[0, 100]`; every sub-score is clamped to
`[0, 100]` before being surfaced. -/
theorem acmScore_bounds (data : HealthData) :
    (0 ≤ (calculateACMScore data).overall ∧ (calculateACMScore data).overall ≤ 100) ∧
    (0 ≤ (calculateACMScore data).breakdown.cardiovascular ∧
      (calculateACMScore data).breakdown.cardiovascular ≤ 100) ∧
    (0 ≤ (calculateACMScore data).breakdown.metabolic ∧
      (calculateACMScore data).breakdown.metabolic ≤ 100) ∧
    (0 ≤ (calculateACMScore data).breakdown.activity ∧
      (calculateACMScore data).breakdown.activity ≤ 100) ∧
    (0 ≤ (calculateACMScore data).breakdown.lifestyle ∧
      (calculateACMScore data).breakdown.lifestyle ≤ 100) ∧
    (0 ≤ calculateCardiovascularScore data ∧ calculateCardiovascularScore data ≤ 100) ∧
    (0 ≤ calculateMetabolicScore data ∧ calculateMetabolicScore data ≤ 100) ∧
    (0 ≤ calculateActivityScore data ∧ calculateActivityScore data ≤ 100) ∧
    (0 ≤ calculateLifestyleScore data ∧ calculateLifestyleScore data ≤ 100) := by
  obtain ⟨hd0, hd1⟩ := applyDemographicAdjustments_bounds
    (calculateCardiovascularScore data * 0.35 + calculateMetabolicScore data * 0.25 +
      calculateActivityScore data * 0.25 + calculateLifestyleScore data * 0.15) data
  obtain ⟨hc0, hc1⟩ := cardiovascular_bounds data
  obtain ⟨hm0, hm1⟩ := metabolic_bounds data
  obtain ⟨ha0, ha1⟩ := activity_bounds data
  obtain ⟨hl0, hl1⟩ := lifestyle_bounds data
  exact ⟨round_mem_Icc hd0 hd1, round_mem_Icc hc0 hc1, round_mem_Icc hm0 hm1,
    round_mem_Icc ha0 ha1, round_mem_Icc hl0 hl1, ⟨hc0, hc1⟩, ⟨hm0, hm1⟩,
    ⟨ha0, ha1⟩, ⟨hl0, hl1⟩⟩

/-- Claim C3: the all-null snapshot scores 100 on every dimension and overall, is
classified low risk, and gets exactly the two generic fallback recommendations in
source order. -/
theorem acmScore_emptySnapshot :
    calculateACMScore emptySnapshot =
      { overall := 100
        breakdown := { cardiovascular := 100, metabolic := 100, activity := 100, lifestyle := 100 }
        riskLevel := .low
        recommendations := ["🌟 继续保持健康的生活方式！", "📊 定期监测健康指标"] } ∧
    calculateCardiovascularScore emptySnapshot = 100 ∧
    calculateMetabolicScore emptySnapshot = 100 ∧
    calculateActivityScore emptySnapshot = 100 ∧
    calculateLifestyleScore emptySnapshot = 100 := by
  norm_num [calculateACMScore, calculateCardiovascularScore, calculateMetabolicScore,
    calculateActivityScore, calculateLifestyleScore, applyDemographicAdjustments,
    determineRiskLevel, generateRecommendations, truthy, emptySnapshot, round_eq,
    optNoneEqSome, optSomeEqNone]

/-- Claim C5: the high-tier bonus branches of the activity sub-scorer are dead code:
once steps reach 12000 the `≥ 10000` branch has already fired with `+15`, and once the
calorie ratio reaches 1.5 the `≥ 1.2` branch has already fired with `+15`; in
particular 15000 steps alone yield activity 100 (115 clamped). -/
theorem activity_high_tiers_unreachable :
    (∀ score steps : ℚ, 12000 ≤ steps → stepAdjust score steps = score + 15) ∧
    (∀ score calorieRatio : ℚ, 1.5 ≤ calorieRatio → energyAdjust score calorieRatio = score + 15) ∧
    calculateActivityScore { emptySnapshot with stepCount := some 15000 } = 100 := by
  refine ⟨?_, ?_, ?_⟩
  · intro score steps h
    unfold stepAdjust
    split_ifs <;> first | rfl | linarith
  · intro score calorieRatio h
    unfold energyAdjust
    split_ifs <;> first | rfl | linarith
  · norm_num [calculateActivityScore, stepAdjust, targetCalories, truthy, emptySnapshot]

/-- Witness for claim C5 at steps 12000 and ratio 1.5. -/
theorem activity_high_tiers_unreachable_witness :
    stepAdjust 0 12000 = 0 + 15 ∧ energyAdjust 0 1.5 = 0 + 15 :=
  ⟨activity_high_tiers_unreachable.1 0 12000 (by norm_num),
   activity_high_tiers_unreachable.2.1 0 1.5 (by norm_num)⟩

/-- Claim C7: `determineRiskLevel` buckets integer scores at 85/70/50, and
`getScoreColor` assigns every integer score the color of its risk tier under the
injective mapping `tierColor`. -/
theorem risk_color_agreement :
    (∀ s : ℤ, (85 ≤ s → determineRiskLevel (s : ℚ) = .low) ∧
      (70 ≤ s ∧ s < 85 → determineRiskLevel (s : ℚ) = .moderate) ∧
      (50 ≤ s ∧ s < 70 → determineRiskLevel (s : ℚ) = .high) ∧
      (s < 50 → determineRiskLevel (s : ℚ) = .veryHigh)) ∧
    (∀ s : ℤ, getScoreColor (s : ℚ) = tierColor (determineRiskLevel (s : ℚ))) ∧
    Function.Injective tierColor := by
  refine ⟨?_, ?_, ?_⟩
  · intro s
    refine ⟨fun h => ?_, fun h => ?_, fun h => ?_, fun h => ?_⟩
    · have hq : (85 : ℚ) ≤ (s : ℚ) := by exact_mod_cast h
      unfold determineRiskLevel
      rw [if_pos (by linarith : (s : ℚ) ≥ 85)]
    · obtain ⟨h1, h2⟩ := h
      have hq1 : (70 : ℚ) ≤ (s : ℚ) := by exact_mod_cast h1
      have hq2 : (s : ℚ) < 85 := by exact_mod_cast h2
      unfold determineRiskLevel
      rw [if_neg (not_le.mpr (by linarith)), if_pos (by linarith : (s : ℚ) ≥ 70)]
    · obtain ⟨h1, h2⟩ := h
      have hq1 : (50 : ℚ) ≤ (s : ℚ) := by exact_mod_cast h1
      have hq2 : (s : ℚ) < 70 := by exact_mod_cast h2
      unfold determineRiskLevel
      rw [if_neg (not_le.mpr (by linarith)), if_neg (not_le.mpr (by linarith)),
        if_pos (by linarith : (s : ℚ) ≥ 50)]
    · have hq : (s : ℚ) < 50 := by exact_mod_cast h
      unfold determineRiskLevel
      rw [if_neg (not_le.mpr (by linarith)), if_neg (not_le.mpr (by linarith)),
        if_neg (not_le.mpr (by linarith))]
  · intro s
    unfold getScoreColor determineRiskLevel tierColor
    split_ifs <;> rfl
  · intro a b h
    cases a <;> cases b <;> first | rfl | (exact absurd h (by decide))

/-- Witness for claim C7 at the boundary scores 85, 84, 70, 69, 50, 49. -/
theorem risk_color_agreement_witness :
    determineRiskLevel ((85 : ℤ) : ℚ) = .low ∧
    determineRiskLevel ((84 : ℤ) : ℚ) = .moderate ∧
    determineRiskLevel ((70 : ℤ) : ℚ) = .moderate ∧
    determineRiskLevel ((69 : ℤ) : ℚ) = .high ∧
    determineRiskLevel ((50 : ℤ) : ℚ) = .high ∧
    determineRiskLevel ((49 : ℤ) : ℚ) = .veryHigh :=
  ⟨(risk_color_agreement.1 85).1 (by norm_num),
   (risk_color_agreement.1 84).2.1 (by norm_num),
   (risk_color_agreement.1 70).2.1 (by norm_num),
   (risk_color_agreement.1 69).2.2.1 (by norm_num),
   (risk_color_agreement.1 50).2.2.1 (by norm_num),
   (risk_color_agreement.1 49).2.2.2 (by norm_num)⟩

/-- `applyDemographicAdjustments` computes clamp of the score times the spec's age
multiplier; the code's truthiness guard on `age` coincides with the spec because a
zero age falls in the `×1.0` bucket anyway. -/
theorem applyDemographicAdjustments_eq_spec (score : ℚ) (data : HealthData) :
    applyDemographicAdjustments score data =
      max 0 (min 100 (score * specAgeMultiplier data.age)) := by
  unfold applyDemographicAdjustments specAgeMultiplier
  cases h : data.age with
  | none => simp [truthy]
  | some a =>
    by_cases ha : a = 0
    · subst ha
      norm_num [truthy]
    · simp only [truthy, ha, ne_eq, not_false_eq_true, decide_True, Option.getD_some,
        if_true]
      split_ifs <;> norm_num

/-- Claim C6: overall is the rounded clamp of the weighted sum of the unrounded
sub-scores times the age multiplier, and the breakdown integers are the
independently rounded sub-scores. -/
theorem acm_aggregation_pipeline (data : HealthData) :
    (calculateACMScore data).overall =
      round (max 0 (min 100 ((calculateCardiovascularScore data * 0.35 +
        calculateMetabolicScore data * 0.25 + calculateActivityScore data * 0.25 +
        calculateLifestyleScore data * 0.15) * specAgeMultiplier data.age))) ∧
    (calculateACMScore data).breakdown.cardiovascular = round (calculateCardiovascularScore data) ∧
    (calculateACMScore data).breakdown.metabolic = round (calculateMetabolicScore data) ∧
    (calculateACMScore data).breakdown.activity = round (calculateActivityScore data) ∧
    (calculateACMScore data).breakdown.lifestyle = round (calculateLifestyleScore data) := by
  refine ⟨?_, rfl, rfl, rfl, rfl⟩
  show round (applyDemographicAdjustments _ data) = _
  rw [applyDemographicAdjustments_eq_spec]

/-- The two BMI chains agree everywhere except on the gap `24.9 < bmi < 25`, where
the direct chain's final guard `bmi ≤ 24.9` withholds the `+10` bonus that the
derived chain's bare `else` grants. -/
theorem bmiAdjust_eq_derivedBmiAdjust (score b : ℚ) (hgap : ¬(24.9 < b ∧ b < 25)) :
    bmiAdjust score b = derivedBmiAdjust score b := by
  unfold bmiAdjust derivedBmiAdjust
  split_ifs with h1 h2 h3 h4
  · rfl
  · rfl
  · rfl
  · rfl
  · exfalso
    rcases not_and_or.mp h4 with h5 | h5
    · exact h5 (le_of_not_lt h1)
    · rcases not_and_or.mp hgap with h6 | h6
      · exact h6 (lt_of_not_le h5)
      · exact h6 (lt_of_not_le h3)

/-- Counterexample to claim C4: `gapSnapshot` has `bmi` absent and weight/height
present, yet scoring it with `bmi` preset to the derived value `24.95` gives a
different metabolic score (90) than deriving it internally (100), because the
direct chain withholds the `+10` bonus on `(24.9, 25)`. -/
theorem metabolic_bmi_paths_differ :
    gapSnapshot.bmi = none ∧
    truthy gapSnapshot.weight = true ∧
    truthy gapSnapshot.height = true ∧
    calculateMetabolicScore
        { gapSnapshot with
          bmi := some (gapSnapshot.weight.getD 0 /
            ((gapSnapshot.height.getD 0 / 100) * (gapSnapshot.height.getD 0 / 100))) } ≠
      calculateMetabolicScore gapSnapshot := by
  refine ⟨rfl, by norm_num [gapSnapshot, emptySnapshot, truthy],
    by norm_num [gapSnapshot, emptySnapshot, truthy], ?_⟩
  have hL : calculateMetabolicScore
      { gapSnapshot with
        bmi := some (gapSnapshot.weight.getD 0 /
          ((gapSnapshot.height.getD 0 / 100) * (gapSnapshot.height.getD 0 / 100))) } = 90 := by
    norm_num [calculateMetabolicScore, bmiAdjust, truthy, gapSnapshot, emptySnapshot,
      optNoneEqSome, optSomeEqNone, femaleNeMale, abs_of_nonneg]
  have hR : calculateMetabolicScore gapSnapshot = 100 := by
    norm_num [calculateMetabolicScore, derivedBmiAdjust, truthy, gapSnapshot, emptySnapshot,
      optNoneEqSome, optSomeEqNone, femaleNeMale, abs_of_nonneg]
  rw [hL, hR]
  norm_num

/-- Claim C4 as amended: with `bmi` absent but weight and height present, presetting
`bmi` to the derived value gives the same metabolic score, provided the derived BMI
does not fall in the gap `(24.9, 25)` (where the direct chain withholds the `+10`
bonus that the derived chain grants). -/
theorem metabolic_bmi_paths_agree (data : HealthData)
    (hb : data.bmi = none)
    (hw : truthy data.weight = true)
    (hh : truthy data.height = true)
    (hgap : ¬(24.9 < data.weight.getD 0 /
        ((data.height.getD 0 / 100) * (data.height.getD 0 / 100)) ∧
      data.weight.getD 0 /
        ((data.height.getD 0 / 100) * (data.height.getD 0 / 100)) < 25)) :
    calculateMetabolicScore
        { data with
          bmi := some (data.weight.getD 0 /
            ((data.height.getD 0 / 100) * (data.height.getD 0 / 100))) } =
      calculateMetabolicScore data := by
  obtain ⟨sc, hr, ow, oh, bps, bpd, ob, orhr, oaeb, oage, osex⟩ := data
  simp only at hb hw hh hgap ⊢
  subst hb
  cases ow with
  | none => simp [truthy] at hw
  | some w =>
  cases oh with
  | none => simp [truthy] at hh
  | some ht =>
  have hw0 : w ≠ 0 := by simpa [truthy] using hw
  have hh0 : ht ≠ 0 := by simpa [truthy] using hh
  simp only [Option.getD_some] at hgap
  have hb0 : w / (ht / 100 * (ht / 100)) ≠ 0 :=
    div_ne_zero hw0 (mul_ne_zero (div_ne_zero hh0 (by norm_num)) (div_ne_zero hh0 (by norm_num)))
  unfold calculateMetabolicScore
  simp only [truthy, Option.getD_some, ne_eq, hb0, not_false_eq_true, decide_True, if_true,
    hw0, hh0, Bool.and_self, Bool.true_and]
  rw [bmiAdjust_eq_derivedBmiAdjust 100 _ hgap]
  simp

/-- Witness for the amended claim C4 at `plainSnapshot`. -/
theorem metabolic_bmi_paths_agree_witness :
    calculateMetabolicScore
        { plainSnapshot with
          bmi := some (plainSnapshot.weight.getD 0 /
            ((plainSnapshot.height.getD 0 / 100) * (plainSnapshot.height.getD 0 / 100))) } =
      calculateMetabolicScore plainSnapshot :=
  metabolic_bmi_paths_agree plainSnapshot rfl
    (by norm_num [truthy, plainSnapshot, emptySnapshot])
    (by norm_num [truthy, plainSnapshot, emptySnapshot])
    (by norm_num [plainSnapshot, emptySnapshot])

/-- Claim C8: `generateRecommendations` emits exactly the spec's per-dimension
blocks in the order cardiovascular → metabolic → activity → lifestyle → generic
fallback, truncated to at most 4 entries; as a pure function it is deterministic. -/
theorem recommendations_structure (data : HealthData) (breakdown : Breakdown) :
    generateRecommendations data breakdown = specRecommendations data breakdown ∧
    (generateRecommendations data breakdown).length ≤ 4 := by
  have heq : generateRecommendations data breakdown = specRecommendations data breakdown := by
    unfold generateRecommendations specRecommendations cardioBlock metabolicBlock
      activityBlock lifestyleBlock
    split_ifs <;> simp_all
  refine ⟨heq, ?_⟩
  rw [heq]
  unfold specRecommendations
  simp [List.length_take]

/-- Claim C9: the recommendation list is never empty — every snapshot and breakdown
yields between 1 and 4 strings (a dimension below 70 contributes at least one, and
otherwise the two generic fallback strings are emitted). -/
theorem recommendations_length_bounds (data : HealthData) (breakdown : Breakdown) :
    1 ≤ (generateRecommendations data breakdown).length ∧
    (generateRecommendations data breakdown).length ≤ 4 := by
  unfold generateRecommendations
  split_ifs <;> simp_all

/-- Claim C10: zero-valued readings are asymmetric at the interface: a zero
`restingHeartRate`, `heartRate` or `bmi` behaves exactly like an absent one (they
are truthiness-tested), while a zero `stepCount` or `activeEnergyBurned` is treated
as present (null-tested) and penalized — alone they yield activity 60 and 70. -/
theorem zero_reading_asymmetry :
    (∀ data : HealthData,
      calculateACMScore { data with restingHeartRate := some 0 } =
        calculateACMScore { data with restingHeartRate := none }) ∧
    (∀ data : HealthData,
      calculateACMScore { data with heartRate := some 0 } =
        calculateACMScore { data with heartRate := none }) ∧
    (∀ data : HealthData,
      calculateACMScore { data with bmi := some 0 } =
        calculateACMScore { data with bmi := none }) ∧
    calculateActivityScore { emptySnapshot with stepCount := some 0 } = 60 ∧
    calculateActivityScore { emptySnapshot with activeEnergyBurned := some 0 } = 70 := by
  refine ⟨?_, ?_, ?_, ?_, ?_⟩
  · intro data
    have hcv : calculateCardiovascularScore { data with restingHeartRate := some 0 } =
        calculateCardiovascularScore { data with restingHeartRate := none } := by
      simp [calculateCardiovascularScore, truthy]
    have hmb : calculateMetabolicScore { data with restingHeartRate := some 0 } =
        calculateMetabolicScore { data with restingHeartRate := none } := rfl
    have hac : calculateActivityScore { data with restingHeartRate := some 0 } =
        calculateActivityScore { data with restingHeartRate := none } := rfl
    have hls : calculateLifestyleScore { data with restingHeartRate := some 0 } =
        calculateLifestyleScore { data with restingHeartRate := none } := by
      simp [calculateLifestyleScore, truthy, lt_self_iff_false, List.filter_cons,
        List.filter_nil]
    have hgr : ∀ bd, generateRecommendations { data with restingHeartRate := some 0 } bd =
        generateRecommendations { data with restingHeartRate := none } bd := by
      intro bd
      simp [generateRecommendations, truthy]
    simp only [calculateACMScore]
    rw [hcv, hmb, hac, hls, applyDemographicAdjustments_eq_spec,
      applyDemographicAdjustments_eq_spec, hgr]
  · intro data
    have hcv : calculateCardiovascularScore { data with heartRate := some 0 } =
        calculateCardiovascularScore { data with heartRate := none } := by
      simp [calculateCardiovascularScore, truthy]
    have hmb : calculateMetabolicScore { data with heartRate := some 0 } =
        calculateMetabolicScore { data with heartRate := none } := rfl
    have hac : calculateActivityScore { data with heartRate := some 0 } =
        calculateActivityScore { data with heartRate := none } := rfl
    have hls : calculateLifestyleScore { data with heartRate := some 0 } =
        calculateLifestyleScore { data with heartRate := none } := by
      simp [calculateLifestyleScore, truthy, lt_self_iff_false, List.filter_cons,
        List.filter_nil]
    have hgr : ∀ bd, generateRecommendations { data with heartRate := some 0 } bd =
        generateRecommendations { data with heartRate := none } bd := fun _ => rfl
    simp only [calculateACMScore]
    rw [hcv, hmb, hac, hls, applyDemographicAdjustments_eq_spec,
      applyDemographicAdjustments_eq_spec, hgr]
  · intro data
    have hcv : calculateCardiovascularScore { data with bmi := some 0 } =
        calculateCardiovascularScore { data with bmi := none } := rfl
    have hmb : calculateMetabolicScore { data with bmi := some 0 } =
        calculateMetabolicScore { data with bmi := none } := by
      simp [calculateMetabolicScore, truthy]
    have hac : calculateActivityScore { data with bmi := some 0 } =
        calculateActivityScore { data with bmi := none } := rfl
    have hls : calculateLifestyleScore { data with bmi := some 0 } =
        calculateLifestyleScore { data with bmi := none } := rfl
    have hgr : ∀ bd, generateRecommendations { data with bmi := some 0 } bd =
        generateRecommendations { data with bmi := none } bd := by
      intro bd
      simp [generateRecommendations, truthy]
    simp only [calculateACMScore]
    rw [hcv, hmb, hac, hls, applyDemographicAdjustments_eq_spec,
      applyDemographicAdjustments_eq_spec, hgr]
  · norm_num [calculateActivityScore, stepAdjust, energyAdjust, targetCalories, truthy,
      emptySnapshot]
  · norm_num [calculateActivityScore, stepAdjust, energyAdjust, targetCalories, truthy,
      emptySnapshot]

/-- `(pure a : Except String α)` is `Except.ok a`. -/
theorem pureOk {α : Type} (a : α) : (pure a : Except String α) = Except.ok a := rfl

/-- Binding an `Except.ok` applies the continuation. -/
theorem okBind {α β : Type} (a : α) (f : α → Except String β) :
    (Except.ok a : Except String α) >>= f = f a := rfl

/-- The checked cardiovascular scorer never errs and agrees with the plain one. -/
theorem checkedCardiovascularScore_ok (data : HealthData) :
    checkedCardiovascularScore data = Except.ok (calculateCardiovascularScore data) := by
  unfold checkedCardiovascularScore calculateCardiovascularScore
  cases h1 : data.restingHeartRate with
  | none =>
    cases h2 : data.heartRate <;> simp [truthy, readField, okBind, pureOk]
  | some v =>
    by_cases hv : v = 0
    · cases h2 : data.heartRate <;> simp [truthy, readField, okBind, pureOk, hv]
    · cases h2 : data.heartRate with
      | none => simp [truthy, readField, okBind, pureOk, hv]
      | some w =>
        by_cases hw : w = 0 <;> simp [truthy, readField, okBind, pureOk, hv, hw]

/-- Bind distributes over an if-then-else scrutinee. -/
theorem iteBind {α β : Type} (c : Prop) [Decidable c] (x y : Except String α)
    (f : α → Except String β) :
    ((if c then x else y) >>= f) = if c then x >>= f else y >>= f := by
  split_ifs <;> rfl

/-- An if-then-else of two `Except.ok`s is `Except.ok` of the if-then-else. -/
theorem okIte {α : Type} (c : Prop) [Decidable c] (a b : α) :
    (if c then (Except.ok a : Except String α) else Except.ok b) =
      Except.ok (if c then a else b) := by
  split_ifs <;> rfl

/-- A truthy field is present, so reading it succeeds with its value. -/
theorem readField_of_truthy {o : Option ℚ} (h : truthy o = true) :
    readField o = Except.ok (o.getD 0) := by
  cases o
  · simp [truthy] at h
  · rfl

/-- A non-null field read succeeds with its value. -/
theorem readField_of_isSome {o : Option ℚ} (h : o.isSome = true) :
    readField o = Except.ok (o.getD 0) := by
  cases o
  · simp at h
  · rfl

set_option maxHeartbeats 1600000 in
/-- The checked metabolic scorer never errs and agrees with the plain one. -/
theorem checkedMetabolicScore_ok (data : HealthData) :
    checkedMetabolicScore data = Except.ok (calculateMetabolicScore data) := by
  unfold checkedMetabolicScore calculateMetabolicScore
  cases htw : truthy data.weight <;> cases hth : truthy data.height <;>
    cases hta : truthy data.age <;> cases hs : data.biologicalSex.isSome <;>
      cases hb : truthy data.bmi <;>
        simp [readField_of_truthy, htw, hth, hta, hs, hb, pureOk, okBind]

/-- The checked activity scorer never errs and agrees with the plain one. -/
theorem checkedActivityScore_ok (data : HealthData) :
    checkedActivityScore data = Except.ok (calculateActivityScore data) := by
  unfold checkedActivityScore calculateActivityScore
  cases h1 : data.stepCount <;> cases h2 : data.activeEnergyBurned <;>
    simp [readField, okBind, pureOk]

/-- The checked lifestyle scorer never errs and agrees with the plain one. -/
theorem checkedLifestyleScore_ok (data : HealthData) :
    checkedLifestyleScore data = Except.ok (calculateLifestyleScore data) := by
  unfold checkedLifestyleScore calculateLifestyleScore
  cases ha : truthy data.age <;>
    simp [readField_of_truthy, ha, pureOk, okBind]

/-- The checked demographic adjustment never errs and agrees with the plain one. -/
theorem checkedApplyDemographicAdjustments_ok (score : ℚ) (data : HealthData) :
    checkedApplyDemographicAdjustments score data =
      Except.ok (applyDemographicAdjustments score data) := by
  unfold checkedApplyDemographicAdjustments applyDemographicAdjustments
  cases ha : truthy data.age <;>
    simp [readField_of_truthy, ha, pureOk, okBind]

set_option maxHeartbeats 6400000 in
/-- The checked recommendation generator never errs and agrees with the plain one. -/
theorem checkedGenerateRecommendations_ok (data : HealthData) (breakdown : Breakdown) :
    checkedGenerateRecommendations data breakdown =
      Except.ok (generateRecommendations data breakdown) := by
  unfold checkedGenerateRecommendations generateRecommendations
  cases h1 : truthy data.restingHeartRate <;> cases h2 : truthy data.bmi <;>
    cases h3 : data.stepCount.isSome <;>
      simp [readField_of_truthy, readField_of_isSome, h1, h2, h3, pureOk, okBind,
        iteBind, okIte] <;>
      by_cases hc : breakdown.cardiovascular < 70 <;>
      by_cases hm : breakdown.metabolic < 70 <;>
      by_cases hac : breakdown.activity < 70 <;>
      by_cases hl : breakdown.lifestyle < 70 <;>
      simp [hc, hm, hac, hl] <;>
      split_ifs <;> first | rfl | (exfalso; omega) | simp

/-- Claim C2: `calculateACMScore` is total — the instrumented engine, in which the
value of an absent (null) reading errors the moment it is used, returns
`Except.ok` of the plain result on every snapshot, including every combination of
absent fields and degenerate values; absent fields only ever skip their signal's
contribution. -/
theorem acmScore_never_errs (data : HealthData) :
    checkedCalculateACMScore data = Except.ok (calculateACMScore data) := by
  unfold checkedCalculateACMScore calculateACMScore
  simp only [checkedCardiovascularScore_ok, checkedMetabolicScore_ok,
    checkedActivityScore_ok, checkedLifestyleScore_ok,
    checkedApplyDemographicAdjustments_ok, checkedGenerateRecommendations_ok,
    okBind, pureOk]
